import Mathlib

/-!
# Verification of the LearningTool backend (Django REST API)

Shallow embedding of `backend/api/models.py`, `backend/api/views.py` and
`backend/api/serializers.py`.  Python floats are modelled as rationals (`ℚ`);
all claims under scrutiny involve only exact decimal arithmetic, so the
rational model is faithful (and the spec's `1e-6` tolerance is met exactly).
Timestamps are modelled as natural numbers (`timezone.now()` becomes an
explicit `now` parameter).  `None` becomes `Option`.
-/

namespace LearningTool

/-- `round(x, 2)` in Python rounds half to even.  `roundHalfEven` models
Python's `round` to the nearest integer on an exact rational value. -/
def roundHalfEven (q : ℚ) : ℤ :=
  if q - (⌊q⌋ : ℚ) < 1/2 then ⌊q⌋
  else if 1/2 < q - (⌊q⌋ : ℚ) then ⌊q⌋ + 1
  else if ⌊q⌋ % 2 = 0 then ⌊q⌋ else ⌊q⌋ + 1

/-- `round(x, 2)`: round to two decimal places. -/
def round2 (q : ℚ) : ℚ := (roundHalfEven (q * 100) : ℚ) / 100

/-- `models.py` — `Course`: we keep the primary key and `total_lessons`
(the only fields the claims depend on). -/
structure Course where
  id : Nat
  total_lessons : Nat
  deriving DecidableEq, Repr

/-- `models.py` — `LearningProgress`: the progress record for one
(user, course) pair.  `started_at`/`last_accessed` are auto timestamps no
claim depends on, so they are omitted. -/
structure LearningProgress where
  user_id : Nat
  course_id : Nat
  lessons_completed : Nat
  current_lesson : Nat
  completion_percentage : ℚ
  completed_at : Option Nat
  time_spent_minutes : Nat
  deriving DecidableEq, Repr

/-- `models.py` lines 161–172 — `LearningProgress.save`:
recompute `completion_percentage` when the course has lessons, then set
`completed_at` the first time the percentage is ≥ 100. -/
def LearningProgress.save (now : Nat) (course : Course) (p : LearningProgress) :
    LearningProgress :=
  let p1 :=
    if 0 < course.total_lessons then
      { p with completion_percentage :=
          (p.lessons_completed : ℚ) / (course.total_lessons : ℚ) * 100 }
    else p
  if 100 ≤ p1.completion_percentage ∧ p1.completed_at = none then
    { p1 with completed_at := some now }
  else p1

/-- One write to a progress record: the caller (e.g. `update_or_create` in
`views.py` lines 250–259) sets `lessons_completed` and then the model's
`save` runs.  The course is part of the write because `save` reads
`self.course.total_lessons` at save time. -/
structure Write where
  now : Nat
  course : Course
  lessons_completed : Nat
  deriving DecidableEq, Repr

def applyWrite (p : LearningProgress) (w : Write) : LearningProgress :=
  LearningProgress.save w.now w.course { p with lessons_completed := w.lessons_completed }

def runWrites (p : LearningProgress) (ws : List Write) : LearningProgress :=
  ws.foldl applyWrite p

/-- The timestamp of the first write in the sequence at which the recomputed
completion percentage reaches 100 (`none` if that never happens). -/
def firstCompletionTime (p : LearningProgress) : List Write → Option Nat
  | [] => none
  | w :: ws =>
      if 100 ≤ (applyWrite p w).completion_percentage then some w.now
      else firstCompletionTime (applyWrite p w) ws

/- Basic facts about `save`. -/

theorem save_user_id (now : Nat) (c : Course) (p : LearningProgress) :
    (p.save now c).user_id = p.user_id := by
  unfold LearningProgress.save
  dsimp only
  split <;> split <;> rfl

theorem save_course_id (now : Nat) (c : Course) (p : LearningProgress) :
    (p.save now c).course_id = p.course_id := by
  unfold LearningProgress.save
  dsimp only
  split <;> split <;> rfl

theorem save_lessons (now : Nat) (c : Course) (p : LearningProgress) :
    (p.save now c).lessons_completed = p.lessons_completed := by
  unfold LearningProgress.save
  dsimp only
  split <;> split <;> rfl

theorem save_pct_pos (now : Nat) (c : Course) (p : LearningProgress)
    (h : 0 < c.total_lessons) :
    (p.save now c).completion_percentage =
      (p.lessons_completed : ℚ) / (c.total_lessons : ℚ) * 100 := by
  unfold LearningProgress.save
  dsimp only
  rw [if_pos h]
  split <;> rfl

theorem save_pct_zero (now : Nat) (c : Course) (p : LearningProgress)
    (h : c.total_lessons = 0) :
    (p.save now c).completion_percentage = p.completion_percentage := by
  unfold LearningProgress.save
  dsimp only
  rw [if_neg (show ¬ 0 < c.total_lessons by omega)]
  split <;> rfl

theorem save_completedAt_some (now t : Nat) (c : Course) (p : LearningProgress)
    (h : p.completed_at = some t) :
    (p.save now c).completed_at = some t := by
  simp only [LearningProgress.save]
  split_ifs with h1 h2 h3 <;> simp_all

theorem save_completedAt_none (now : Nat) (c : Course) (p : LearningProgress)
    (h : p.completed_at = none) :
    (p.save now c).completed_at =
      if 100 ≤ (p.save now c).completion_percentage then some now else none := by
  simp only [LearningProgress.save]
  split_ifs with h1 h2 h3 <;> simp_all

theorem runWrites_completedAt_some (ws : List Write) (p : LearningProgress)
    (t : Nat) (h : p.completed_at = some t) :
    (runWrites p ws).completed_at = some t := by
  induction ws generalizing p with
  | nil => exact h
  | cons w ws ih =>
      exact ih (applyWrite p w) (save_completedAt_some w.now t w.course _ h)

theorem runWrites_completedAt_none (ws : List Write) (p : LearningProgress)
    (h : p.completed_at = none) :
    (runWrites p ws).completed_at = firstCompletionTime p ws := by
  induction ws generalizing p with
  | nil => exact h
  | cons w ws ih =>
      show (runWrites (applyWrite p w) ws).completed_at = _
      unfold firstCompletionTime
      have hstep := save_completedAt_none w.now w.course
        { p with lessons_completed := w.lessons_completed } h
      by_cases hc : 100 ≤ (applyWrite p w).completion_percentage
      · rw [if_pos hc]
        have : (applyWrite p w).completed_at = some w.now := by
          rw [show (applyWrite p w).completed_at =
              (LearningProgress.save w.now w.course
                { p with lessons_completed := w.lessons_completed }).completed_at from rfl,
            hstep]
          exact if_pos hc
        exact runWrites_completedAt_some ws _ w.now this
      · rw [if_neg hc]
        apply ih
        rw [show (applyWrite p w).completed_at =
            (LearningProgress.save w.now w.course
              { p with lessons_completed := w.lessons_completed }).completed_at from rfl,
          hstep]
        exact if_neg hc

/-!
## Bulk update (`views.py` lines 238–266, `serializers.py` lines 388–422)
-/

/-- One element of the request body of `POST /learning-progress/bulk_update/`
(`BulkLearningProgressSerializer` fields, `serializers.py` lines 393–396).
`lessons_completed` and `time_spent_minutes` carry `min_value=0`, so the
validated values are naturals. -/
structure BulkItem where
  user_id : Nat
  course_id : Nat
  lessons_completed : Nat
  time_spent_minutes : Nat
  deriving DecidableEq, Repr

/-- The relational store, restricted to the tables the claims touch:
user ids, courses, and the `LearningProgress` rows. -/
structure Db where
  users : List Nat
  courses : List Course
  progress : List LearningProgress
  deriving DecidableEq, Repr

/-- `BulkLearningProgressSerializer.validate` (`serializers.py` lines
398–414): the referenced user and course must exist.  Note it does NOT
compare `lessons_completed` with the course's `total_lessons`. -/
def bulkItemValid (db : Db) (it : BulkItem) : Bool :=
  db.users.contains it.user_id && db.courses.any (fun c => c.id == it.course_id)

/-- `LearningProgress.objects.update_or_create(user_id=…, course_id=…,
defaults={…})` (`views.py` lines 251–258): update the row with that
(user, course) key if it exists, otherwise create it; either way the model's
`save` runs, which needs the row's course (the `none` branch is unreachable
when the item passed validation). -/
def uocUpdate (now : Nat) (c : Course) (it : BulkItem)
    (p : LearningProgress) : LearningProgress :=
  if p.user_id == it.user_id && p.course_id == it.course_id then
    LearningProgress.save now c
      { p with lessons_completed := it.lessons_completed,
               time_spent_minutes := it.time_spent_minutes }
  else p

def update_or_create (now : Nat) (courses : List Course)
    (st : List LearningProgress) (it : BulkItem) : List LearningProgress :=
  match courses.find? (fun c => c.id == it.course_id) with
  | none => st
  | some c =>
      match st.find? (fun p => p.user_id == it.user_id && p.course_id == it.course_id) with
      | some _ => st.map (uocUpdate now c it)
      | none =>
          st ++ [LearningProgress.save now c
            { user_id := it.user_id, course_id := it.course_id,
              lessons_completed := it.lessons_completed, current_lesson := 1,
              completion_percentage := 0, completed_at := none,
              time_spent_minutes := it.time_spent_minutes }]

/-- Outcome of the bulk endpoint: `{'status': 'success', 'updated_count': n}`
with HTTP 200, or HTTP 400 with the serializer errors. -/
inductive BulkResponse where
  | ok (updated_count : Nat)
  | badRequest
  deriving DecidableEq, Repr

/-- `LearningProgressViewSet.bulk_update` (`views.py` lines 238–266): DRF's
`many=True` serializer `is_valid()` succeeds only when EVERY item validates;
only then is the loop of `update_or_create` calls run (incrementing
`updated_count` once per item); otherwise nothing is written and the
per-item errors are returned with HTTP 400. -/
def bulk_update (now : Nat) (db : Db) (items : List BulkItem) :
    Db × BulkResponse :=
  if items.all (bulkItemValid db) then
    ({ db with progress :=
        items.foldl (fun st it => update_or_create now db.courses st it) db.progress },
     BulkResponse.ok items.length)
  else
    (db, BulkResponse.badRequest)

/-- `LearningProgressSerializer.validate_lessons_completed` (`serializers.py`
lines 155–168): the single-record path.  The `Option Course` is `none` in the
source's fall-through branch (no instance and no course in the payload),
where the value is returned unchecked. -/
def validate_lessons_completed (course : Option Course) (value : Nat) :
    Except String Nat :=
  match course with
  | none => Except.ok value
  | some c =>
      if c.total_lessons < value then
        Except.error ("Cannot complete more than " ++ toString c.total_lessons
          ++ " lessons")
      else Except.ok value

/-- Some row with the given (user, course) key is present in the store. -/
def hasKey (st : List LearningProgress) (u c : Nat) : Prop :=
  ∃ p ∈ st, p.user_id = u ∧ p.course_id = c

/-- At most one progress row per (user, course) pair
(`unique_together = ['user', 'course']`, `models.py` line 149). -/
def KeyUnique (st : List LearningProgress) : Prop :=
  st.Pairwise (fun p q => ¬(p.user_id = q.user_id ∧ p.course_id = q.course_id))

theorem uocUpdate_user_id (now : Nat) (c : Course) (it : BulkItem)
    (p : LearningProgress) : (uocUpdate now c it p).user_id = p.user_id := by
  unfold uocUpdate
  split
  · exact save_user_id _ _ _
  · rfl

theorem uocUpdate_course_id (now : Nat) (c : Course) (it : BulkItem)
    (p : LearningProgress) : (uocUpdate now c it p).course_id = p.course_id := by
  unfold uocUpdate
  split
  · exact save_course_id _ _ _
  · rfl

theorem uoc_preserves_hasKey (now : Nat) (courses : List Course)
    (st : List LearningProgress) (it : BulkItem) (u c : Nat)
    (h : hasKey st u c) : hasKey (update_or_create now courses st it) u c := by
  obtain ⟨p, hp, hpu, hpc⟩ := h
  unfold update_or_create
  cases hfc : courses.find? (fun c => c.id == it.course_id) with
  | none => exact ⟨p, hp, hpu, hpc⟩
  | some co =>
      cases hfs : st.find?
          (fun p => p.user_id == it.user_id && p.course_id == it.course_id) with
      | some q =>
          exact ⟨_, List.mem_map_of_mem _ hp,
            (uocUpdate_user_id _ _ _ _).trans hpu,
            (uocUpdate_course_id _ _ _ _).trans hpc⟩
      | none => exact ⟨p, List.mem_append_left _ hp, hpu, hpc⟩

theorem uoc_creates_hasKey (now : Nat) (courses : List Course)
    (st : List LearningProgress) (it : BulkItem)
    (h : courses.any (fun c => c.id == it.course_id) = true) :
    hasKey (update_or_create now courses st it) it.user_id it.course_id := by
  unfold update_or_create
  have hsome : (courses.find? (fun c => c.id == it.course_id)).isSome := by
    rw [List.find?_isSome]
    obtain ⟨x, hx, hpx⟩ := List.any_eq_true.mp h
    exact ⟨x, hx, hpx⟩
  cases hfc : courses.find? (fun c => c.id == it.course_id) with
  | none => rw [hfc] at hsome; simp at hsome
  | some co =>
      cases hfs : st.find?
          (fun p => p.user_id == it.user_id && p.course_id == it.course_id) with
      | some q =>
          have hq : (q.user_id == it.user_id && q.course_id == it.course_id) = true := by
            have := List.find?_some hfs
            simpa using this
          simp only [Bool.and_eq_true, beq_iff_eq] at hq
          refine ⟨_, List.mem_map_of_mem _ (List.mem_of_find?_eq_some hfs), ?_⟩
          rw [uocUpdate_user_id, uocUpdate_course_id]
          exact ⟨hq.1, hq.2⟩
      | none =>
          refine ⟨_, List.mem_append_right _ (List.mem_singleton_self _), ?_⟩
          exact ⟨save_user_id _ _ _, save_course_id _ _ _⟩

theorem foldl_preserves_hasKey (now : Nat) (courses : List Course)
    (items : List BulkItem) (st : List LearningProgress) (u c : Nat)
    (h : hasKey st u c) :
    hasKey (items.foldl (fun s i => update_or_create now courses s i) st) u c := by
  induction items generalizing st with
  | nil => exact h
  | cons i is ih => exact ih _ (uoc_preserves_hasKey now courses st i u c h)

theorem foldl_key_exists (now : Nat) (db : Db) (items : List BulkItem)
    (st : List LearningProgress)
    (hv : ∀ it ∈ items, bulkItemValid db it = true) :
    ∀ it ∈ items,
      hasKey (items.foldl (fun s i => update_or_create now db.courses s i) st)
        it.user_id it.course_id := by
  induction items generalizing st with
  | nil => intro it hit; cases hit
  | cons i is ih =>
      intro it hit
      rcases List.mem_cons.mp hit with rfl | hmem
      · have hvi := hv it (List.mem_cons_self _ _)
        have := uoc_creates_hasKey now db.courses st it
          (by simpa [bulkItemValid, Bool.and_eq_true] using (Bool.and_eq_true _ _ |>.mp hvi).2)
        exact foldl_preserves_hasKey now db.courses is _ _ _ this
      · exact ih _ (fun x hx => hv x (List.mem_cons_of_mem _ hx)) it hmem

theorem uoc_preserves_KeyUnique (now : Nat) (courses : List Course)
    (st : List LearningProgress) (it : BulkItem)
    (h : KeyUnique st) : KeyUnique (update_or_create now courses st it) := by
  unfold update_or_create
  cases hfc : courses.find? (fun c => c.id == it.course_id) with
  | none => exact h
  | some co =>
      cases hfs : st.find?
          (fun p => p.user_id == it.user_id && p.course_id == it.course_id) with
      | some q =>
          show KeyUnique (st.map (uocUpdate now co it))
          refine List.Pairwise.map _ ?_ h
          intro a b hab hk
          apply hab
          rwa [uocUpdate_user_id, uocUpdate_user_id, uocUpdate_course_id,
            uocUpdate_course_id] at hk
      | none =>
          show KeyUnique (st ++ [_])
          rw [KeyUnique, List.pairwise_append]
          refine ⟨h, List.pairwise_singleton _ _, ?_⟩
          intro a ha b hb
          rw [List.mem_singleton] at hb
          subst hb
          rw [List.find?_eq_none] at hfs
          have hne := hfs a ha
          simp only [Bool.and_eq_true, beq_iff_eq, not_and] at hne
          rw [save_user_id, save_course_id]
          intro hk
          exact hne hk.1 hk.2

theorem foldl_preserves_KeyUnique (now : Nat) (courses : List Course)
    (items : List BulkItem) (st : List LearningProgress)
    (h : KeyUnique st) :
    KeyUnique (items.foldl (fun s i => update_or_create now courses s i) st) := by
  induction items generalizing st with
  | nil => exact h
  | cons i is ih => exact ih _ (uoc_preserves_KeyUnique now courses st i h)

/-!
## Metric comparison (`views.py` lines 298–336) and dashboard
(`views.py` lines 410–484)
-/

/-- `models.py` — `UserPerformanceMetric`: one time-series sample.  The user
and timestamp play no role in the comparison/dashboard aggregates modelled
here, so only the fields those computations read are kept. -/
structure Metric where
  metric_type : String
  value : ℚ
  is_optimized : Bool
  deriving DecidableEq, Repr

/-- The values of the group of samples of one `metric_type` with the given
`is_optimized` flag (the filters at `views.py` lines 311–320). -/
def groupVals (ms : List Metric) (t : String) (opt : Bool) : List ℚ :=
  (ms.filter (fun m => m.metric_type == t && m.is_optimized == opt)).map
    (fun m => m.value)

/-- Django's `Avg` aggregate: `None` on an empty group, otherwise the mean. -/
def avgValue (ms : List Metric) (t : String) (opt : Bool) : Option ℚ :=
  let vs := groupVals ms t opt
  if vs.length = 0 then none else some (vs.sum / (vs.length : ℚ))

/-- Python truthiness of `avg_value` in
`if before['avg_value'] and after['avg_value']:` (`views.py` line 322):
`None` and `0.0` are both falsy. -/
def truthyAvg : Option ℚ → Option ℚ
  | none => none
  | some q => if q = 0 then none else some q

structure ComparisonEntry where
  metric_type : String
  before_optimization : ℚ
  after_optimization : ℚ
  improvement_percentage : ℚ
  sample_size : Nat
  deriving DecidableEq, Repr

def metric_types : List String :=
  ["page_load", "api_response", "engagement", "conversion"]

/-- One iteration of the comparison loop (`views.py` lines 309–333): an
entry is appended exactly when both averages are truthy. -/
def comparisonEntry (ms : List Metric) (t : String) : Option ComparisonEntry :=
  match truthyAvg (avgValue ms t false), truthyAvg (avgValue ms t true) with
  | some b, some a =>
      some { metric_type := t,
             before_optimization := round2 b,
             after_optimization := round2 a,
             improvement_percentage := round2 ((b - a) / b * 100),
             sample_size :=
               (ms.filter (fun m => m.metric_type == t)).length }
  | _, _ => none

/-- `UserPerformanceMetricViewSet.comparison`: the loop over the four fixed
metric types, appending at most one entry per type. -/
def comparison (ms : List Metric) : List ComparisonEntry :=
  metric_types.filterMap (comparisonEntry ms)

/-- `aggregate(avg=Avg('value'))['avg'] or 0` as used throughout
`dashboard_view` (`views.py` lines 446–468): a missing average (and a zero
average, via Python `or`) becomes 0. -/
def avgOr0 (ms : List Metric) (t : String) (opt : Bool) : ℚ :=
  match avgValue ms t opt with
  | none => 0
  | some q => q

/-- `views.py` lines 446–456: the dashboard's api_response improvement,
`((perf_before - perf_after) / perf_before * 100) if perf_before > 0 else 0`,
then `round(…, 2)` at line 479. -/
def dashboard_performance_improvement (ms : List Metric) : ℚ :=
  let perf_before := avgOr0 ms "api_response" false
  let perf_after := avgOr0 ms "api_response" true
  round2 (if 0 < perf_before then (perf_before - perf_after) / perf_before * 100
          else 0)

/-- `views.py` lines 458–468: the dashboard's engagement improvement,
`((engagement_after - engagement_before) / engagement_before * 100) if
engagement_before > 0 else 0`, then `round(…, 2)` at line 480.  Note the
sign convention is the reverse of the comparison endpoint's. -/
def dashboard_engagement_improvement (ms : List Metric) : ℚ :=
  let engagement_before := avgOr0 ms "engagement" false
  let engagement_after := avgOr0 ms "engagement" true
  round2 (if 0 < engagement_before then
            (engagement_after - engagement_before) / engagement_before * 100
          else 0)

/-!
## API log statistics (`views.py` lines 367–403, `models.py` lines 270–286)
-/

/-- `models.py` — `APIResponseLog`, restricted to the fields the statistics
computation reads. -/
structure LogEntry where
  endpoint : String
  response_time_ms : ℚ
  status_code : Nat
  timestamp : Nat
  cache_hit : Bool
  deriving DecidableEq, Repr

structure EndpointStats where
  endpoint : String
  total_requests : Nat
  average_response_time : Option ℚ
  min_response_time : Option ℚ
  max_response_time : Option ℚ
  cache_hit_rate : ℚ
  error_rate : ℚ
  deriving DecidableEq, Repr

/-- One row of `APIResponseLogViewSet.statistics` (`views.py` lines
377–400): the per-endpoint aggregates over the window `timestamp ≥ since`,
with the rates guarded by `if total > 0 else 0`.  (In the source a row only
exists when the group is nonempty, so `Avg`/`Min`/`Max` are modelled as
`Option` and are `some` on every row the endpoint actually returns; the row
ordering by `-total_requests` affects no claim and is not modelled.) -/
def statsFor (logs : List LogEntry) (since : Nat) (ep : String) : EndpointStats :=
  let group := (logs.filter (fun l => since ≤ l.timestamp)).filter
    (fun l => l.endpoint == ep)
  let total := group.length
  let cache_hits := (group.filter (fun l => l.cache_hit)).length
  let errors := (group.filter (fun l => 400 ≤ l.status_code)).length
  { endpoint := ep,
    total_requests := total,
    average_response_time :=
      (if total = 0 then none
       else some ((group.map (fun l => l.response_time_ms)).sum / (total : ℚ))).map
        round2,
    min_response_time := ((group.map (fun l => l.response_time_ms)).min?).map round2,
    max_response_time := ((group.map (fun l => l.response_time_ms)).max?).map round2,
    cache_hit_rate :=
      if 0 < total then round2 ((cache_hits : ℚ) / (total : ℚ) * 100) else 0,
    error_rate :=
      if 0 < total then round2 ((errors : ℚ) / (total : ℚ) * 100) else 0 }

/-- `APIResponseLog.get_cache_hit_rate` (`models.py` lines 270–286): the
reusable helper, returning 0 when the window holds no logs (note: unlike the
statistics rows it does not round). -/
def get_cache_hit_rate (logs : List LogEntry) (since : Nat) : ℚ :=
  let total := (logs.filter (fun l => since ≤ l.timestamp)).length
  if total = 0 then 0
  else
    ((logs.filter (fun l => since ≤ l.timestamp && l.cache_hit)).length : ℚ)
      / (total : ℚ) * 100

/-!
## Rounding bounds
-/

theorem roundHalfEven_nonneg (x : ℚ) (h : 0 ≤ x) : 0 ≤ roundHalfEven x := by
  unfold roundHalfEven
  have hf : 0 ≤ ⌊x⌋ := Int.floor_nonneg.mpr h
  split_ifs <;> omega

theorem roundHalfEven_le (x : ℚ) (n : ℤ) (h : x ≤ (n : ℚ)) :
    roundHalfEven x ≤ n := by
  unfold roundHalfEven
  have hf : ⌊x⌋ ≤ n := by
    have := Int.floor_le_floor h
    simpa using this
  have hfx : (⌊x⌋ : ℚ) ≤ x := Int.floor_le x
  split_ifs with h1 h2 h3
  · exact hf
  · have hlt : ((⌊x⌋ : ℤ) : ℚ) < (n : ℚ) := by linarith
    have : ⌊x⌋ < n := by exact_mod_cast hlt
    omega
  · exact hf
  · have heq : x - (⌊x⌋ : ℚ) = 1/2 := le_antisymm (not_lt.mp h2) (not_lt.mp h1)
    have hlt : ((⌊x⌋ : ℤ) : ℚ) < (n : ℚ) := by linarith
    have : ⌊x⌋ < n := by exact_mod_cast hlt
    omega

theorem round2_nonneg (q : ℚ) (h : 0 ≤ q) : 0 ≤ round2 q := by
  unfold round2
  have h1 := roundHalfEven_nonneg (q * 100) (by linarith)
  have h2 : (0 : ℚ) ≤ (roundHalfEven (q * 100) : ℚ) := by exact_mod_cast h1
  linarith

theorem round2_le_hundred (q : ℚ) (h : q ≤ 100) : round2 q ≤ 100 := by
  unfold round2
  have h1 : q * 100 ≤ ((10000 : ℤ) : ℚ) := by push_cast; linarith
  have h2 := roundHalfEven_le (q * 100) 10000 h1
  have h3 : ((roundHalfEven (q * 100) : ℤ) : ℚ) ≤ 10000 := by exact_mod_cast h2
  linarith

theorem round2_zero : round2 0 = 0 := by
  unfold round2 roundHalfEven
  norm_num

theorem rate_bounds (k n : Nat) (hk : k ≤ n) :
    0 ≤ (if 0 < n then round2 ((k : ℚ) / (n : ℚ) * 100) else 0) ∧
      (if 0 < n then round2 ((k : ℚ) / (n : ℚ) * 100) else 0) ≤ 100 := by
  split_ifs with h
  · have hn : (0 : ℚ) < (n : ℚ) := by exact_mod_cast h
    have hkn : (k : ℚ) ≤ (n : ℚ) := by exact_mod_cast hk
    have hd : (k : ℚ) / (n : ℚ) ≤ 1 := (div_le_one hn).mpr hkn
    have hd0 : 0 ≤ (k : ℚ) / (n : ℚ) := by positivity
    exact ⟨round2_nonneg _ (by linarith), round2_le_hundred _ (by linarith)⟩
  · norm_num

/-!
## Facts about the comparison loop
-/

theorem truthyAvg_some {o : Option ℚ} {b : ℚ} (h : truthyAvg o = some b) :
    o = some b := by
  cases o with
  | none => cases h
  | some q =>
      rw [show truthyAvg (some q) = if q = 0 then none else some q from rfl] at h
      by_cases hq : q = 0
      · rw [if_pos hq] at h; cases h
      · rw [if_neg hq] at h; exact h

theorem truthyAvg_isSome (o : Option ℚ) :
    (truthyAvg o).isSome = true ↔ o ≠ none ∧ o ≠ some 0 := by
  cases o with
  | none => simp [truthyAvg]
  | some q => by_cases hq : q = 0 <;> simp [truthyAvg, hq]

theorem avgValue_eq_none_iff (ms : List Metric) (t : String) (opt : Bool) :
    avgValue ms t opt = none ↔ groupVals ms t opt = [] := by
  simp only [avgValue]
  split_ifs with h
  · simp [List.length_eq_zero.mp h]
  · simp only [List.length_eq_zero] at h
    simp [h]

theorem comparisonEntry_none_left {ms : List Metric} {t : String}
    (hb : truthyAvg (avgValue ms t false) = none) :
    comparisonEntry ms t = none := by
  unfold comparisonEntry
  rw [hb]

theorem comparisonEntry_none_right {ms : List Metric} {t : String} {b : ℚ}
    (hb : truthyAvg (avgValue ms t false) = some b)
    (ha : truthyAvg (avgValue ms t true) = none) :
    comparisonEntry ms t = none := by
  unfold comparisonEntry
  rw [hb, ha]

theorem comparisonEntry_some {ms : List Metric} {t : String} {b a : ℚ}
    (hb : truthyAvg (avgValue ms t false) = some b)
    (ha : truthyAvg (avgValue ms t true) = some a) :
    comparisonEntry ms t =
      some { metric_type := t,
             before_optimization := round2 b,
             after_optimization := round2 a,
             improvement_percentage := round2 ((b - a) / b * 100),
             sample_size := (ms.filter (fun m => m.metric_type == t)).length } := by
  unfold comparisonEntry
  rw [hb, ha]

theorem comparisonEntry_metric_type {ms : List Metric} {t : String}
    {e : ComparisonEntry} (h : comparisonEntry ms t = some e) :
    e.metric_type = t := by
  cases hb : truthyAvg (avgValue ms t false) with
  | none => rw [comparisonEntry_none_left hb] at h; cases h
  | some b =>
      cases ha : truthyAvg (avgValue ms t true) with
      | none => rw [comparisonEntry_none_right hb ha] at h; cases h
      | some a =>
          rw [comparisonEntry_some hb ha] at h
          injection h with h'
          rw [← h']

theorem comparisonEntry_isSome (ms : List Metric) (t : String) :
    (comparisonEntry ms t).isSome = true ↔
      (truthyAvg (avgValue ms t false)).isSome = true ∧
      (truthyAvg (avgValue ms t true)).isSome = true := by
  cases hb : truthyAvg (avgValue ms t false) with
  | none => rw [comparisonEntry_none_left hb]; simp
  | some b =>
      cases ha : truthyAvg (avgValue ms t true) with
      | none => rw [comparisonEntry_none_right hb ha]; simp
      | some a => rw [comparisonEntry_some hb ha]; simp

theorem sample_size_split (ms : List Metric) (t : String) :
    (ms.filter (fun m => m.metric_type == t)).length =
      (groupVals ms t false).length + (groupVals ms t true).length := by
  unfold groupVals
  rw [List.length_map, List.length_map]
  induction ms with
  | nil => rfl
  | cons x xs ih =>
      by_cases h1 : (x.metric_type == t) = true <;>
        by_cases h2 : x.is_optimized = true <;>
        simp [List.filter_cons, h1, h2, ih] <;> omega

theorem filter_sub {α : Type} (l : List α) (p keep : α → Bool)
    (h : ∀ a, p a = true → keep a = true) :
    (l.filter keep).filter p = l.filter p := by
  rw [List.filter_filter]
  apply List.filter_congr
  intro a _
  by_cases hp : p a = true
  · simp [hp, h a hp]
  · simp [hp]

theorem map_filterMap_sublist {α β : Type} (f : α → Option β) (g : β → α)
    (l : List α) (hf : ∀ a b, f a = some b → g b = a) :
    ((l.filterMap f).map g).Sublist l := by
  induction l with
  | nil => simp
  | cons x xs ih =>
      cases hx : f x with
      | none =>
          simp only [List.filterMap_cons, hx]
          exact ih.cons x
      | some b =>
          simp only [List.filterMap_cons, hx, List.map_cons]
          rw [hf x b hx]
          exact ih.cons₂ x

theorem filterMap_congr_mem {α β : Type} (l : List α) (f g : α → Option β)
    (h : ∀ a ∈ l, f a = g a) : l.filterMap f = l.filterMap g := by
  induction l with
  | nil => rfl
  | cons x xs ih =>
      rw [List.filterMap_cons, List.filterMap_cons, h x (List.mem_cons_self _ _),
        ih (fun a ha => h a (List.mem_cons_of_mem _ ha))]

theorem groupVals_restrict (ms : List Metric) (t : String) (opt : Bool)
    (keep : Metric → Bool)
    (h : ∀ m : Metric, (m.metric_type == t) = true → keep m = true) :
    groupVals (ms.filter keep) t opt = groupVals ms t opt := by
  unfold groupVals
  rw [filter_sub]
  intro m hm
  exact h m (Bool.and_eq_true _ _ |>.mp hm).1

theorem avgValue_restrict (ms : List Metric) (t : String) (opt : Bool)
    (keep : Metric → Bool)
    (h : ∀ m : Metric, (m.metric_type == t) = true → keep m = true) :
    avgValue (ms.filter keep) t opt = avgValue ms t opt := by
  unfold avgValue
  rw [groupVals_restrict ms t opt keep h]

theorem comparisonEntry_restrict (ms : List Metric) (t : String)
    (ht : t ∈ metric_types) :
    comparisonEntry (ms.filter (fun m => metric_types.contains m.metric_type)) t =
      comparisonEntry ms t := by
  have hk : ∀ m : Metric, (m.metric_type == t) = true →
      (metric_types.contains m.metric_type) = true := by
    intro m hm
    rw [beq_iff_eq] at hm
    rw [hm]
    simpa using ht
  unfold comparisonEntry
  rw [avgValue_restrict ms t false _ hk, avgValue_restrict ms t true _ hk,
    filter_sub ms _ _ hk]

/- Concrete fixtures used by counterexamples and witnesses. -/

def course10 : Course := { id := 1, total_lessons := 10 }

def course0 : Course := { id := 1, total_lessons := 0 }

def p0 : LearningProgress :=
  { user_id := 1, course_id := 1, lessons_completed := 5, current_lesson := 1,
    completion_percentage := 0, completed_at := none, time_spent_minutes := 0 }

def pDone : LearningProgress := { p0 with completed_at := some 2 }

def wsC3 : List Write :=
  [{ now := 3, course := course10, lessons_completed := 4 },
   { now := 7, course := course10, lessons_completed := 10 },
   { now := 9, course := course10, lessons_completed := 2 }]

def dbC1 : Db := { users := [1], courses := [course10], progress := [] }

def itGood : BulkItem :=
  { user_id := 1, course_id := 1, lessons_completed := 3, time_spent_minutes := 5 }

def itBad : BulkItem :=
  { user_id := 99, course_id := 1, lessons_completed := 2, time_spent_minutes := 4 }

def course3 : Course := { id := 1, total_lessons := 3 }

def dbC4 : Db := { users := [1], courses := [course3], progress := [] }

def itemOver : BulkItem :=
  { user_id := 1, course_id := 1, lessons_completed := 5, time_spent_minutes := 0 }

def msC5 : List Metric :=
  [{ metric_type := "page_load", value := 0, is_optimized := false },
   { metric_type := "page_load", value := 5, is_optimized := true }]

def msC5W : List Metric :=
  [{ metric_type := "page_load", value := 10, is_optimized := false },
   { metric_type := "page_load", value := 5, is_optimized := true }]

def msC6 : List Metric :=
  [{ metric_type := "api_response", value := 250, is_optimized := false },
   { metric_type := "api_response", value := 250, is_optimized := false },
   { metric_type := "api_response", value := 250, is_optimized := false },
   { metric_type := "api_response", value := 175, is_optimized := true },
   { metric_type := "api_response", value := 175, is_optimized := true },
   { metric_type := "api_response", value := 175, is_optimized := true }]

def entryC6 : ComparisonEntry :=
  { metric_type := "api_response", before_optimization := 250,
    after_optimization := 175, improvement_percentage := 30, sample_size := 6 }

def msC8 : List Metric :=
  [{ metric_type := "engagement", value := 100, is_optimized := false },
   { metric_type := "engagement", value := 50, is_optimized := true }]

def msC8W : List Metric :=
  [{ metric_type := "api_response", value := 250, is_optimized := false },
   { metric_type := "api_response", value := 175, is_optimized := true },
   { metric_type := "engagement", value := 100, is_optimized := false },
   { metric_type := "engagement", value := 50, is_optimized := true }]

/-- Claim C2, counterexample: a record saved against a course with 10 lessons
(percentage 50) and saved again after the course's `total_lessons` was edited
to 0 keeps percentage 50 — the claim says it should be 0 when `L = 0`. -/
theorem C2_counterexample :
    ((p0.save 0 course10).save 1 course0).completion_percentage = 50 ∧
    ((p0.save 0 course10).save 1 course0).completion_percentage ≠ 0 := by
  norm_num [LearningProgress.save, p0, course10, course0]

/-- Claim C2 (amended): on every save, when the course has `L > 0` total
lessons the stored percentage is `lessons_completed / L × 100` (exactly, so
within 1e-6); when `L = 0` the save leaves `completion_percentage` unchanged
(hence 0 only for a record that was 0 before, e.g. a fresh record). -/
theorem C2_theorem (now : Nat) (course : Course) (p : LearningProgress) :
    (0 < course.total_lessons →
      (p.save now course).completion_percentage =
        (p.lessons_completed : ℚ) / (course.total_lessons : ℚ) * 100) ∧
    (course.total_lessons = 0 →
      (p.save now course).completion_percentage = p.completion_percentage) :=
  ⟨save_pct_pos now course p, save_pct_zero now course p⟩

/-- Claim C2, witness: both branches of `C2_theorem` evaluated on concrete
records (5 of 10 lessons gives 50%; a zero-lesson course keeps the old 0%). -/
theorem C2_witness :
    (p0.save 0 course10).completion_percentage = 50 ∧
    (p0.save 1 course0).completion_percentage = 0 :=
  ⟨((C2_theorem 0 course10 p0).1 (by norm_num [course10])).trans
     (by norm_num [p0, course10]),
   ((C2_theorem 1 course0 p0).2 rfl).trans rfl⟩

/-- Claim C3 (confirmed): `completed_at` is never overwritten once set (first
conjunct: it survives any further sequence of writes, even ones reducing
`lessons_completed` below 100%), and starting from an unset `completed_at` it
ends up equal to the timestamp of the first save at which the recomputed
completion percentage reaches 100, `none` if no save reaches it (second
conjunct) — i.e. it is set exactly once, at that first save. -/
theorem C3_theorem (p : LearningProgress) (ws : List Write) :
    (∀ t, p.completed_at = some t → (runWrites p ws).completed_at = some t) ∧
    (p.completed_at = none →
      (runWrites p ws).completed_at = firstCompletionTime p ws) :=
  ⟨fun t h => runWrites_completedAt_some ws p t h, runWrites_completedAt_none ws p⟩

/-- Claim C3, witness: a write sequence reaching 100% at time 7 and then
dropping back to 20% ends with `completed_at = some 7`; a record already
completed at time 2 keeps `completed_at = some 2` through the same writes. -/
theorem C3_witness :
    (runWrites p0 wsC3).completed_at = some 7 ∧
    (runWrites pDone wsC3).completed_at = some 2 :=
  ⟨((C3_theorem p0 wsC3).2 rfl).trans
     (by norm_num [firstCompletionTime, applyWrite, LearningProgress.save,
       wsC3, p0, course10]),
   (C3_theorem pDone wsC3).1 2 rfl⟩

/-- Claim C1, counterexample: a batch holding one valid tuple and one tuple
with a nonexistent `user_id` (99) is rejected whole — the valid tuple is NOT
applied (the store stays empty), contradicting "every other valid tuple in
the same batch is still applied". -/
theorem C1_counterexample :
    bulkItemValid dbC1 itGood = true ∧
    bulkItemValid dbC1 itBad = false ∧
    (bulk_update 0 dbC1 [itGood, itBad]).1.progress = [] ∧
    (bulk_update 0 dbC1 [itGood, itBad]).2 = BulkResponse.badRequest :=
  ⟨by decide, by decide, by decide, by decide⟩

/-- Claim C1 (amended): bulk update is all-or-nothing.  If every tuple passes
validation, the request succeeds with `updated_count` = number of tuples and
every tuple's (user, course) key is present afterwards; if any tuple fails
validation, HTTP 400 is returned and no tuple is applied (store unchanged). -/
theorem C1_theorem (now : Nat) (db : Db) (items : List BulkItem) :
    (items.all (bulkItemValid db) = true →
      (bulk_update now db items).2 = BulkResponse.ok items.length ∧
      ∀ it ∈ items,
        hasKey (bulk_update now db items).1.progress it.user_id it.course_id) ∧
    (items.all (bulkItemValid db) = false →
      bulk_update now db items = (db, BulkResponse.badRequest)) := by
  constructor
  · intro hv
    unfold bulk_update
    rw [if_pos hv]
    refine ⟨rfl, ?_⟩
    intro it hit
    exact foldl_key_exists now db items db.progress
      (fun x hx => List.all_eq_true.mp hv x hx) it hit
  · intro hv
    unfold bulk_update
    rw [if_neg (show ¬items.all (bulkItemValid db) = true by simp [hv])]

/-- Claim C1, witness: a fully valid batch succeeds and creates the row; the
mixed batch from the counterexample is rejected unchanged. -/
theorem C1_witness :
    (bulk_update 0 dbC1 [itGood]).2 = BulkResponse.ok 1 ∧
    hasKey (bulk_update 0 dbC1 [itGood]).1.progress 1 1 ∧
    bulk_update 0 dbC1 [itGood, itBad] = (dbC1, BulkResponse.badRequest) := by
  have h1 := (C1_theorem 0 dbC1 [itGood]).1 (by decide)
  exact ⟨h1.1, h1.2 itGood (List.mem_singleton_self _),
    (C1_theorem 0 dbC1 [itGood, itBad]).2 (by decide)⟩

/-- Claim C4, counterexample: the bulk path never compares
`lessons_completed` with the course's `total_lessons`; a bulk item with 5
lessons completed on a 3-lesson course is accepted and a row with
`lessons_completed > total_lessons` is stored. -/
theorem C4_counterexample :
    (bulk_update 0 dbC4 [itemOver]).2 = BulkResponse.ok 1 ∧
    ∃ p ∈ (bulk_update 0 dbC4 [itemOver]).1.progress,
      ∃ c ∈ dbC4.courses,
        p.course_id = c.id ∧ c.total_lessons < p.lessons_completed := by
  have hred : (bulk_update 0 dbC4 [itemOver]).1.progress =
      [LearningProgress.save 0 course3
        { user_id := 1, course_id := 1, lessons_completed := 5,
          current_lesson := 1, completion_percentage := 0, completed_at := none,
          time_spent_minutes := 0 }] := rfl
  refine ⟨rfl, ?_⟩
  rw [hred]
  refine ⟨_, List.mem_singleton_self _, course3, List.mem_singleton_self _, ?_, ?_⟩
  · simp [save_course_id, course3]
  · simp [save_lessons, course3]

/-- Claim C4 (amended): the single-record serializer path with a determinable
course rejects `lessons_completed > total_lessons` with a `ValidationError`
naming the maximum (and accepts values within the cap), but the bulk
serializer's validity is independent of `lessons_completed`, so the bulk path
can store records exceeding the course total. -/
theorem C4_theorem (course : Course) (v : Nat) (db : Db) (it : BulkItem)
    (v2 : Nat) :
    (course.total_lessons < v →
      validate_lessons_completed (some course) v =
        Except.error ("Cannot complete more than " ++
          toString course.total_lessons ++ " lessons")) ∧
    (v ≤ course.total_lessons →
      validate_lessons_completed (some course) v = Except.ok v) ∧
    bulkItemValid db { it with lessons_completed := v2 } = bulkItemValid db it := by
  refine ⟨?_, ?_, rfl⟩
  · intro h
    simp only [validate_lessons_completed]
    rw [if_pos h]
  · intro h
    simp only [validate_lessons_completed]
    rw [if_neg (show ¬course.total_lessons < v by omega)]

/-- Claim C4, witness: on a 3-lesson course, submitting 5 fails with the
message naming the maximum, submitting 2 succeeds; the bulk validator ignores
`lessons_completed` entirely. -/
theorem C4_witness :
    validate_lessons_completed (some course3) 5 =
      Except.error ("Cannot complete more than " ++
        toString course3.total_lessons ++ " lessons") ∧
    validate_lessons_completed (some course3) 2 = Except.ok 2 ∧
    bulkItemValid dbC4 { itemOver with lessons_completed := 99 } =
      bulkItemValid dbC4 itemOver :=
  ⟨(C4_theorem course3 5 dbC4 itemOver 99).1 (by decide),
   (C4_theorem course3 2 dbC4 itemOver 99).2.1 (by decide),
   (C4_theorem course3 2 dbC4 itemOver 99).2.2⟩

/-- Claim C9 (confirmed): if the store satisfies the one-row-per-(user,
course) invariant, it still satisfies it after any bulk upsert — updates
rewrite rows in place (keys unchanged) and creates only append keys that were
absent. -/
theorem C9_theorem (now : Nat) (db : Db) (items : List BulkItem)
    (h : KeyUnique db.progress) :
    KeyUnique (bulk_update now db items).1.progress := by
  unfold bulk_update
  split
  · exact foldl_preserves_KeyUnique now db.courses items db.progress h
  · exact h

/-- Claim C9, witness: upserting the same (user, course) tuple twice in one
batch leaves a store with unique keys. -/
theorem C9_witness :
    KeyUnique (bulk_update 0 dbC1 [itGood, itGood]).1.progress :=
  C9_theorem 0 dbC1 [itGood, itGood] List.Pairwise.nil

/-- Claim C5, counterexample: with one `page_load` sample of value 0 in the
baseline group and one sample in the optimized group, both groups are
nonempty, yet the comparison omits `page_load` — Python's
`if before['avg_value'] and after['avg_value']` treats a `0.0` average like a
missing group, refuting the "if and only if zero samples" claim. -/
theorem C5_counterexample :
    (groupVals msC5 "page_load" false).length = 1 ∧
    (groupVals msC5 "page_load" true).length = 1 ∧
    comparison msC5 = [] := by
  refine ⟨by simp [groupVals, msC5], by simp [groupVals, msC5], ?_⟩
  have h1 : comparisonEntry msC5 "page_load" = none := by
    apply comparisonEntry_none_left
    have hv : avgValue msC5 "page_load" false = some 0 := by
      norm_num [avgValue, groupVals, msC5]
    rw [hv]
    simp [truthyAvg]
  have h2 : comparisonEntry msC5 "api_response" = none := by
    apply comparisonEntry_none_left
    have hv : avgValue msC5 "api_response" false = none := by
      simp [avgValue, groupVals, msC5]
    rw [hv]
    rfl
  have h3 : comparisonEntry msC5 "engagement" = none := by
    apply comparisonEntry_none_left
    have hv : avgValue msC5 "engagement" false = none := by
      simp [avgValue, groupVals, msC5]
    rw [hv]
    rfl
  have h4 : comparisonEntry msC5 "conversion" = none := by
    apply comparisonEntry_none_left
    have hv : avgValue msC5 "conversion" false = none := by
      simp [avgValue, groupVals, msC5]
    rw [hv]
    rfl
  simp [comparison, metric_types, h1, h2, h3, h4]

/-- Claim C5 (amended): a metric_type appears in the comparison result iff
both its groups are nonempty AND neither group's average value is 0 (Django's
`Avg` is `None` exactly on an empty group; Python truthiness additionally
drops a 0.0 average). -/
theorem C5_theorem (ms : List Metric) (t : String) (ht : t ∈ metric_types) :
    (∃ e ∈ comparison ms, e.metric_type = t) ↔
      (groupVals ms t false ≠ [] ∧ groupVals ms t true ≠ [] ∧
       avgValue ms t false ≠ some 0 ∧ avgValue ms t true ≠ some 0) := by
  have hmem : (∃ e ∈ comparison ms, e.metric_type = t) ↔
      (comparisonEntry ms t).isSome = true := by
    constructor
    · rintro ⟨e, he, het⟩
      simp only [comparison] at he
      obtain ⟨t', ht', hce⟩ := List.mem_filterMap.mp he
      have h1 : e.metric_type = t' := comparisonEntry_metric_type hce
      have h2 : t' = t := by rw [← h1, het]
      subst h2
      rw [hce]
      rfl
    · intro h
      obtain ⟨e, he⟩ := Option.isSome_iff_exists.mp h
      refine ⟨e, ?_, comparisonEntry_metric_type he⟩
      simp only [comparison]
      exact List.mem_filterMap.mpr ⟨t, ht, he⟩
  rw [hmem, comparisonEntry_isSome, truthyAvg_isSome, truthyAvg_isSome]
  constructor
  · rintro ⟨⟨h1, h2⟩, h3, h4⟩
    refine ⟨?_, ?_, h2, h4⟩
    · intro hnil; exact h1 ((avgValue_eq_none_iff ms t false).mpr hnil)
    · intro hnil; exact h3 ((avgValue_eq_none_iff ms t true).mpr hnil)
  · rintro ⟨h1, h2, h3, h4⟩
    refine ⟨⟨?_, h3⟩, ?_, h4⟩
    · intro hn; exact h1 ((avgValue_eq_none_iff ms t false).mp hn)
    · intro hn; exact h2 ((avgValue_eq_none_iff ms t true).mp hn)

/-- Claim C5, witness: with nonzero averages on both sides, the `page_load`
entry is present. -/
theorem C5_witness : ∃ e ∈ comparison msC5W, e.metric_type = "page_load" :=
  (C5_theorem msC5W "page_load" (by simp [metric_types])).mpr
    ⟨by simp [groupVals, msC5W], by simp [groupVals, msC5W],
     by norm_num [avgValue, groupVals, msC5W],
     by norm_num [avgValue, groupVals, msC5W]⟩

/-- Claim C6 (confirmed): every entry the comparison returns for a
metric_type has `improvement_percentage = round((before − after)/before ×
100, 2)` computed from the two group averages, and `sample_size` equal to
the total number of samples of that metric_type across both groups. -/
theorem C6_theorem (ms : List Metric) (t : String) (e : ComparisonEntry)
    (h : comparisonEntry ms t = some e) :
    ∃ b a, avgValue ms t false = some b ∧ avgValue ms t true = some a ∧
      e.improvement_percentage = round2 ((b - a) / b * 100) ∧
      e.sample_size =
        (groupVals ms t false).length + (groupVals ms t true).length := by
  cases hb : truthyAvg (avgValue ms t false) with
  | none => rw [comparisonEntry_none_left hb] at h; cases h
  | some b =>
      cases ha : truthyAvg (avgValue ms t true) with
      | none => rw [comparisonEntry_none_right hb ha] at h; cases h
      | some a =>
          rw [comparisonEntry_some hb ha] at h
          injection h with h'
          subst h'
          exact ⟨b, a, truthyAvg_some hb, truthyAvg_some ha, rfl,
            sample_size_split ms t⟩

/-- Claim C6, witness: the spec's example — 3 `api_response` samples
averaging 250 before and 3 averaging 175 after yield the entry with
`improvement_percentage = 30.0` and `sample_size = 6`. -/
theorem C6_witness :
    ∃ b a, avgValue msC6 "api_response" false = some b ∧
      avgValue msC6 "api_response" true = some a ∧
      entryC6.improvement_percentage = round2 ((b - a) / b * 100) ∧
      entryC6.sample_size =
        (groupVals msC6 "api_response" false).length +
          (groupVals msC6 "api_response" true).length :=
  C6_theorem msC6 "api_response" entryC6 (by
    have hb : truthyAvg (avgValue msC6 "api_response" false) = some 250 := by
      norm_num [truthyAvg, avgValue, groupVals, msC6]
    have ha : truthyAvg (avgValue msC6 "api_response" true) = some 175 := by
      norm_num [truthyAvg, avgValue, groupVals, msC6]
    rw [comparisonEntry_some hb ha]
    norm_num [entryC6, round2, roundHalfEven, msC6])

/-- Claim C10 (confirmed): the comparison's entries carry metric types drawn
from the fixed list `["page_load", "api_response", "engagement",
"conversion"]`, in exactly that order with at most one entry per type (the
projection of the result is a sublist of that list), and samples of any
other metric_type never affect the result (restricting the store to the four
listed types yields the identical result). -/
theorem C10_theorem (ms : List Metric) :
    ((comparison ms).map (fun e => e.metric_type)).Sublist metric_types ∧
    comparison (ms.filter (fun m => metric_types.contains m.metric_type)) =
      comparison ms := by
  constructor
  · exact map_filterMap_sublist _ _ _
      (fun t e h => comparisonEntry_metric_type h)
  · exact filterMap_congr_mem _ _ _
      (fun t ht => comparisonEntry_restrict ms t ht)

/-- Claim C7 (confirmed): on every statistics row, `cache_hit_rate` and
`error_rate` lie in `[0, 100]`; both are 0 when the row's `total_requests`
is 0 (the defensive guard); and the reusable helper
`APIResponseLog.get_cache_hit_rate` carries the same zero-total guard. -/
theorem C7_theorem (logs : List LogEntry) (since : Nat) (ep : String)
    (logs2 : List LogEntry) (since2 : Nat) :
    (0 ≤ (statsFor logs since ep).cache_hit_rate ∧
      (statsFor logs since ep).cache_hit_rate ≤ 100) ∧
    (0 ≤ (statsFor logs since ep).error_rate ∧
      (statsFor logs since ep).error_rate ≤ 100) ∧
    ((statsFor logs since ep).total_requests = 0 →
      (statsFor logs since ep).cache_hit_rate = 0 ∧
      (statsFor logs since ep).error_rate = 0) ∧
    ((logs2.filter (fun l => since2 ≤ l.timestamp)).length = 0 →
      get_cache_hit_rate logs2 since2 = 0) := by
  simp only [statsFor, get_cache_hit_rate]
  refine ⟨rate_bounds _ _ (List.length_filter_le _ _),
    rate_bounds _ _ (List.length_filter_le _ _), ?_, ?_⟩
  · intro h0
    rw [h0]
    norm_num
  · intro h0
    rw [if_pos h0]

/-- Claim C7, witness: both zero-total guards fire on an empty log store. -/
theorem C7_witness :
    (statsFor [] 0 "x").cache_hit_rate = 0 ∧
    (statsFor [] 0 "x").error_rate = 0 ∧
    get_cache_hit_rate [] 0 = 0 := by
  have h := C7_theorem [] 0 "x" [] 0
  exact ⟨(h.2.2.1 rfl).1, (h.2.2.1 rfl).2, h.2.2.2 rfl⟩

/-- Claim C8, counterexample: engagement averaging 100 before and 50 after —
the dashboard reports −50 (it computes `(after − before)/before × 100` for
engagement), while the metric-comparison endpoint's formula
`(before − after)/before × 100` gives +50. -/
theorem C8_counterexample :
    dashboard_engagement_improvement msC8 = -50 ∧
    round2 ((avgOr0 msC8 "engagement" false - avgOr0 msC8 "engagement" true) /
      avgOr0 msC8 "engagement" false * 100) = 50 ∧
    dashboard_engagement_improvement msC8 ≠
      round2 ((avgOr0 msC8 "engagement" false - avgOr0 msC8 "engagement" true) /
        avgOr0 msC8 "engagement" false * 100) := by
  have hb : avgOr0 msC8 "engagement" false = 100 := by
    norm_num [avgOr0, avgValue, groupVals, msC8]
  have ha : avgOr0 msC8 "engagement" true = 50 := by
    norm_num [avgOr0, avgValue, groupVals, msC8]
  simp only [dashboard_engagement_improvement, hb, ha]
  norm_num [round2, roundHalfEven]

/-- Claim C8 (amended): the dashboard's api_response improvement does reuse
the comparison endpoint's formula `(before − after)/before × 100`, but its
engagement improvement uses the opposite sign convention,
`(after − before)/before × 100`; each independently equals 0 when its
baseline average is 0. -/
theorem C8_theorem (ms : List Metric) :
    (0 < avgOr0 ms "api_response" false →
      dashboard_performance_improvement ms =
        round2 ((avgOr0 ms "api_response" false - avgOr0 ms "api_response" true) /
          avgOr0 ms "api_response" false * 100)) ∧
    (avgOr0 ms "api_response" false = 0 →
      dashboard_performance_improvement ms = 0) ∧
    (0 < avgOr0 ms "engagement" false →
      dashboard_engagement_improvement ms =
        round2 ((avgOr0 ms "engagement" true - avgOr0 ms "engagement" false) /
          avgOr0 ms "engagement" false * 100)) ∧
    (avgOr0 ms "engagement" false = 0 →
      dashboard_engagement_improvement ms = 0) := by
  refine ⟨?_, ?_, ?_, ?_⟩
  · intro h
    simp only [dashboard_performance_improvement]
    rw [if_pos h]
  · intro h
    simp only [dashboard_performance_improvement]
    rw [if_neg (show ¬0 < avgOr0 ms "api_response" false by rw [h]; exact lt_irrefl 0),
      round2_zero]
  · intro h
    simp only [dashboard_engagement_improvement]
    rw [if_pos h]
  · intro h
    simp only [dashboard_engagement_improvement]
    rw [if_neg (show ¬0 < avgOr0 ms "engagement" false by rw [h]; exact lt_irrefl 0),
      round2_zero]

/-- Claim C8, witness: with the spec's api_response example data (250 → 175)
and engagement 100 → 50, the dashboard reports +30 for api_response, −50 for
engagement, and 0 for api_response when there are no api_response samples. -/
theorem C8_witness :
    dashboard_performance_improvement msC8W = 30 ∧
    dashboard_engagement_improvement msC8W = -50 ∧
    dashboard_performance_improvement msC8 = 0 := by
  have h := C8_theorem msC8W
  have hpb : avgOr0 msC8W "api_response" false = 250 := by
    simp [avgOr0, avgValue, groupVals, msC8W]
  have hpa : avgOr0 msC8W "api_response" true = 175 := by
    simp [avgOr0, avgValue, groupVals, msC8W]
  have heb : avgOr0 msC8W "engagement" false = 100 := by
    simp [avgOr0, avgValue, groupVals, msC8W]
  have hea : avgOr0 msC8W "engagement" true = 50 := by
    simp [avgOr0, avgValue, groupVals, msC8W]
  refine ⟨(h.1 (by rw [hpb]; norm_num)).trans ?_,
    (h.2.2.1 (by rw [heb]; norm_num)).trans ?_,
    (C8_theorem msC8).2.1 (by simp [avgOr0, avgValue, groupVals, msC8])⟩
  · rw [hpb, hpa]
    norm_num [round2, roundHalfEven]
  · rw [heb, hea]
    norm_num [round2, roundHalfEven]

end LearningTool
